import Mathlib

/-!
Shallow embedding of the timestamp / band-selection core of the
`i.landsat.import` GRASS module (`i.landsat.import.py`, `timestamp.py`).

Python strings are modelled as `List Char`, dictionaries with optional keys as
structures of `Option` fields, and Python exceptions (`IndexError`,
`ValueError`, `KeyError`, `grass.fatal`, ...) as an `Except PyErr` monad.
Python `float` arithmetic on fractional seconds is modelled in exact decimal
arithmetic (the quantities handled by the code are decimal fractions with at
most six digits after rounding, where IEEE doubles and exact decimals agree on
every comparison the code performs away from representation-noise ties; ties
in `round` are resolved half-to-even as CPython does on exact values).
-/

namespace Landsat

/-! ### Python string primitives (over `List Char`) -/

/-- ASCII decimal digit test, the fragment of `str.isdigit` the code relies on. -/
def isDigitChar (c : Char) : Bool :=
  '0' ≤ c ∧ c ≤ '9'

/-- Python `str.isdigit()`: nonempty and all digits. -/
def pyIsDigit (s : List Char) : Bool :=
  !s.isEmpty && s.all isDigitChar

/-- Numeric value of a digit string (used to model `int(...)`/`float(...)` on
digit-only strings). -/
def digitsToNat (s : List Char) : Nat :=
  s.foldl (fun a c => a * 10 + (c.toNat - 48)) 0

/-- Decimal digit character. -/
def digitChar (n : Nat) : Char :=
  Char.ofNat (48 + n)

/-- Decimal rendering of a natural number, fuel-based so that it reduces in the
kernel. -/
def natDigitsAux : Nat → Nat → List Char
  | 0, _ => []
  | fuel + 1, n =>
    if n < 10 then [digitChar n]
    else natDigitsAux fuel (n / 10) ++ [digitChar (n % 10)]

/-- Decimal digit string of `n`, as Python `str(n)` / `'{d}'.format(n)`. -/
def natDigits (n : Nat) : List Char :=
  natDigitsAux (n + 1) n

/-- Left-pad with `'0'` to width `n`; Python `str.zfill` for unsigned input
(the code only ever calls it on digit strings). -/
def zfillChars (n : Nat) (s : List Char) : List Char :=
  List.replicate (n - s.length) '0' ++ s

/-- Python `str.split(sep)` for a single-character separator. -/
def splitOnChar (c : Char) : List Char → List (List Char)
  | [] => [[]]
  | ch :: rest =>
    match splitOnChar c rest with
    | [] => [[]]
    | g :: gs => if ch = c then [] :: g :: gs else (ch :: g) :: gs

/-- Does the second list start with the first? -/
def leadsWith : List Char → List Char → Bool
  | [], _ => true
  | _ :: _, [] => false
  | a :: as, b :: bs => a = b && leadsWith as bs

/-- Python substring containment `needle in haystack`. -/
def containsChars (haystack needle : List Char) : Bool :=
  leadsWith needle haystack ||
    match haystack with
    | [] => false
    | _ :: t => containsChars t needle

/-- Python `str.endswith(c)` for a single character. -/
def endsWithChar (s : List Char) (c : Char) : Bool :=
  match s.getLast? with
  | some d => d = c
  | none => false

/-- Python `line.rstrip('\n')`. -/
def rstripNewline (s : List Char) : List Char :=
  (s.reverse.dropWhile (· = '\n')).reverse

/-- Python `str.strip()` (whitespace at both ends). -/
def stripChars (s : List Char) : List Char :=
  ((s.dropWhile Char.isWhitespace).reverse.dropWhile Char.isWhitespace).reverse

/-- Suffix after the first occurrence of `needle`; `[]` when absent.  This is
Python `s.partition(needle)[2]`. -/
def afterFirst (needle : List Char) : List Char → List Char
  | [] => []
  | c :: t =>
    if leadsWith needle (c :: t) then (c :: t).drop needle.length
    else afterFirst needle t

/-- Python `s.rsplit('_')[-1]`: the part after the last underscore (the whole
string when there is none). -/
def lastTokenUnderscore (s : List Char) : List Char :=
  (s.reverse.takeWhile (· ≠ '_')).reverse

/-- Python `os.path.basename`. -/
def pathBasename (s : List Char) : List Char :=
  (s.reverse.takeWhile (· ≠ '/')).reverse

/-- Reversed stem of `rev` (a reversed path): drop a trailing `.ext` of the
final path component, `none` when the component has no dot. -/
def dropExtRev : List Char → Option (List Char)
  | [] => none
  | '/' :: _ => none
  | c :: rest => if c = '.' then some rest else dropExtRev rest

/-- Python `os.path.splitext(s)[0]`: the extension starts at the last dot of
the final path component, provided some non-dot character of that component
comes before it. -/
def splitextStem (s : List Char) : List Char :=
  match dropExtRev s.reverse with
  | none => s
  | some revStem =>
    if (revStem.takeWhile (· ≠ '/')).all (· = '.') then s
    else revStem.reverse

/-! ### Python runtime errors and the timestamp data model -/

/-- The Python exceptions the embedded code can raise, plus `grass.fatal`. -/
inductive PyErr where
  | indexError : PyErr
  | keyError : PyErr
  | valueError : String → PyErr
  | nameError : PyErr
  | fatalError : String → PyErr
  deriving DecidableEq, Repr

/-- The `date_time` dictionary built by `get_timestamp`; every key is optional
because the code only assigns the keys whose metadata lines it finds. -/
structure DateTimeRec where
  date : Option String
  timezone : Option String
  hours : Option String
  minutes : Option String
  seconds : Option String
  deriving DecidableEq, Repr

/-- The empty `date_time = dict()` value. -/
def emptyRec : DateTimeRec :=
  ⟨none, none, none, none, none⟩

/-- `get_timestamp` returns either the manual-override string (passed through
unparsed) or the parsed dictionary. -/
inductive TimestampVal where
  | str : String → TimestampVal
  | dict : DateTimeRec → TimestampVal
  deriving DecidableEq, Repr

/-- The band identifier computed by `get_name_band`: a Python `int` for
numbered bands, the raw token string for the quality-assessment layer. -/
inductive Band where
  | num : Nat → Band
  | str : String → Band
  deriving DecidableEq, Repr

/-- File-handle events of one `get_timestamp` run, used to audit that the
`try/finally` block releases the metadata handle on every path. -/
inductive FileEvent where
  | openOk : FileEvent
  | openFail : FileEvent
  | close : FileEvent
  deriving DecidableEq, Repr

instance {ε α : Type} [DecidableEq ε] [DecidableEq α] : DecidableEq (Except ε α) := fun x y =>
  match x, y with
  | .error a, .error b =>
    if h : a = b then isTrue (congrArg Except.error h)
    else isFalse (fun hh => h (Except.error.inj hh))
  | .ok a, .ok b =>
    if h : a = b then isTrue (congrArg Except.ok h)
    else isFalse (fun hh => h (Except.ok.inj hh))
  | .error _, .ok _ => isFalse (fun hh => Except.noConfusion hh)
  | .ok _, .error _ => isFalse (fun hh => Except.noConfusion hh)

/-- Python `list[i]`, raising `IndexError` when out of range. -/
def getIdx {α : Type} (l : List α) (i : Nat) : Except PyErr α :=
  match l.get? i with
  | some a => Except.ok a
  | none => Except.error PyErr.indexError

/-- Python `int(s)` on the digit-only strings this module feeds it. -/
def pyIntNat (s : List Char) : Except PyErr Nat :=
  if pyIsDigit s then Except.ok (digitsToNat s)
  else Except.error (PyErr.valueError "invalid literal for int")

/-! ### Configuration constants

`constants.py` is not part of the sources here; the values below are the
configuration data the spec describes. -/

/-- Modelled from the spec: `constants.py` is absent; the spec's "configured
set of date key substrings" with the key the round-trip example uses. -/
def DATE_STRINGS : List String :=
  ["DATE_ACQUIRED"]

/-- Modelled from the spec: `constants.py` is absent; the spec's "configured
set of time key substrings" with the key the round-trip example uses. -/
def TIME_STRINGS : List String :=
  ["SCENE_CENTER_TIME"]

/-- Modelled from the spec: the zero timezone offset `+0000`. -/
def ZERO_TIMEZONE : String :=
  "+0000"

/-- Modelled from the spec: the static month-number-to-spelled-out-name table
used by the store timestamp string (`MONTHS` in `constants.py`). -/
def MONTHS : String → Option String
  | "01" => some "January"
  | "02" => some "February"
  | "03" => some "March"
  | "04" => some "April"
  | "05" => some "May"
  | "06" => some "June"
  | "07" => some "July"
  | "08" => some "August"
  | "09" => some "September"
  | "10" => some "October"
  | "11" => some "November"
  | "12" => some "December"
  | _ => none

/-- Three-letter month abbreviations backing CPython `strftime`'s `%b`. -/
def monthAbbrev : Nat → List Char
  | 1 => "Jan".data
  | 2 => "Feb".data
  | 3 => "Mar".data
  | 4 => "Apr".data
  | 5 => "May".data
  | 6 => "Jun".data
  | 7 => "Jul".data
  | 8 => "Aug".data
  | 9 => "Sep".data
  | 10 => "Oct".data
  | 11 => "Nov".data
  | 12 => "Dec".data
  | _ => []

/-- Modelled from the spec: the wrongly-named-metadata marker (`MTL_STRING`
in `constants.py`). -/
def MTL_STRING : String :=
  "MTL"

/-- Modelled from the spec: the quality-assessment marker (`QA_STRING` in
`constants.py`). -/
def QA_STRING : String :=
  "QA"

/-- Modelled from the spec: image-quality filename markers (`QA`, `VCID`)
naming the layers whose token is kept verbatim. -/
def IMAGE_QUALITY_STRINGS : List String :=
  ["QA", "VCID"]

/-! ### Calendar and clock validation (`validate_date_string`,
`validate_time_string`) -/

/-- Leap-year rule used by `datetime`. -/
def isLeapYear (y : Nat) : Bool :=
  y % 4 = 0 && (y % 100 ≠ 0 || y % 400 = 0)

/-- Days in a month per `datetime`. -/
def daysInMonth (y m : Nat) : Nat :=
  if m = 2 then (if isLeapYear y then 29 else 28)
  else if m = 4 || m = 6 || m = 9 || m = 11 then 30
  else 31

/-- `datetime.strptime(s, '%Y-%m-%d')` succeeds: four-digit year, one- or
two-digit month 1..12, one- or two-digit day valid for the month. -/
def isValidDate (s : List Char) : Bool :=
  match splitOnChar '-' s with
  | [y, m, d] =>
    pyIsDigit y && y.length = 4 && 1 ≤ digitsToNat y &&
    pyIsDigit m && m.length ≤ 2 && 1 ≤ digitsToNat m && digitsToNat m ≤ 12 &&
    pyIsDigit d && d.length ≤ 2 && 1 ≤ digitsToNat d &&
    digitsToNat d ≤ daysInMonth (digitsToNat y) (digitsToNat m)
  | _ => false

/-- `H:M:S` fields acceptable to `strptime` (`%H` 0..23, `%M` 0..59, `%S`
0..61, each one or two digits). -/
def isValidHMS (h m s : List Char) : Bool :=
  pyIsDigit h && h.length ≤ 2 && digitsToNat h ≤ 23 &&
  pyIsDigit m && m.length ≤ 2 && digitsToNat m ≤ 59 &&
  pyIsDigit s && s.length ≤ 2 && digitsToNat s ≤ 61

/-- `datetime.strptime` succeeds on `t` with format `%H:%M:%S.%f` when `t`
holds a dot (else `%H:%M:%S`), as in `validate_time_string`. -/
def isValidTime (t : List Char) : Bool :=
  match splitOnChar '.' t with
  | [hms] =>
    (match splitOnChar ':' hms with
     | [h, m, s] => isValidHMS h m s
     | _ => false)
  | [hms, f] =>
    (match splitOnChar ':' hms with
     | [h, m, s] => isValidHMS h m s && pyIsDigit f && f.length ≤ 6
     | _ => false)
  | _ => false

/-- `validate_date_string`. -/
def validate_date_string (s : List Char) : Except PyErr Unit :=
  if isValidDate s then Except.ok ()
  else Except.error (PyErr.valueError "Incorrect data format, should be YYYY-MM-DD")

/-- `validate_time_string`. -/
def validate_time_string (t : List Char) : Except PyErr Unit :=
  if isValidTime t then Except.ok ()
  else Except.error (PyErr.valueError "Incorrect data format, should be HH:MM:SS.ssssss")

/-! ### Fractional seconds (`get_timestamp` lines 540-552, `add_leading_zeroes`) -/

/-- `add_leading_zeroes(real_number, n)`: zero-fill the integer part of a
dotted decimal string; `bits[1]` raises `IndexError` when there is no dot. -/
def add_leading_zeroes (s : List Char) (n : Nat) : Except PyErr (List Char) :=
  match splitOnChar '.' s with
  | b0 :: b1 :: _ => Except.ok (zfillChars n b0 ++ '.' :: b1)
  | _ => Except.error PyErr.indexError

/-- `round(num / 1e7, 6)` in microseconds: `num` is the integer value of the
fractional digit string and the result is `num/10` rounded half-to-even. -/
def roundHalfEvenDiv10 (n : Nat) : Nat :=
  let q := n / 10
  let r := n % 10
  if r < 5 then q
  else if 5 < r then q + 1
  else if q % 2 = 0 then q else q + 1

/-- `format(x, '.6f')` for `x` held as an exact count of microseconds. -/
def format6f (totalMicro : Nat) : List Char :=
  natDigits (totalMicro / 1000000) ++ '.' :: zfillChars 6 (natDigits (totalMicro % 1000000))

/-- The seconds-string computation of `get_timestamp` (lines 540-552 of
`i.landsat.import.py`): optionally fold the fractional digits (scaled by
`1/1e7`, rounded to six decimals) into the integer seconds and re-render,
then drop the fractional part whenever the value is below 10.  `fracTok` is
`time.split('.')[1]` when the split produced one, `none` otherwise. -/
def computeSeconds (skipMicroseconds : Bool) (secondsTok : List Char)
    (fracTok : Option (List Char)) : Except PyErr (List Char) := do
  let sec ←
    if skipMicroseconds then pure secondsTok
    else do
      let frac ← match fracTok with
        | some f => pure f
        | none => Except.error PyErr.indexError
      let num ← pyIntNat frac
      let secInt ← pyIntNat secondsTok
      let total := secInt * 1000000 + roundHalfEvenDiv10 num
      add_leading_zeroes (format6f total) 2
  let intPart ← pyIntNat ((splitOnChar '.' sec).headD [])
  if intPart < 10 then pure ((splitOnChar '.' sec).headD [])
  else pure sec

/-! ### The metadata line loop (`get_timestamp`) -/

/-- `any(x in line for x in keys)`. -/
def lineHasAny (line : List Char) (keys : List String) : Bool :=
  keys.any (fun k => containsChars line k.data)

/-- Python `':'.join((h, m, s))`. -/
def joinColon (h m s : List Char) : List Char :=
  h ++ ':' :: m ++ ':' :: s

/-- Dictionary read `d[key]`, raising `KeyError` when the key was never
assigned. -/
def keyGet {α : Type} : Option α → Except PyErr α
  | some a => Except.ok a
  | none => Except.error PyErr.keyError

/-- The body of the time branch of `get_timestamp` (lines 533-560 of
`i.landsat.import.py`, after quote removal and the timezone assignment):
extract the value after `=`, delete every `'Z'`, split into
hours/minutes/seconds, fold in the microseconds, validate, and return the
three rendered fields. -/
def processTimeValue (skipMicroseconds : Bool) (line : List Char) :
    Except PyErr (List Char × List Char × List Char) := do
  let v ← getIdx (splitOnChar '=' (stripChars line)) 1
  let time := (stripChars v).filter (· ≠ 'Z')
  match splitOnChar ':' ((splitOnChar '.' time).headD []) with
  | [hours, minutes, seconds] => do
    let sec ← computeSeconds skipMicroseconds seconds ((splitOnChar '.' time).get? 1)
    let _ ← validate_time_string (joinColon hours minutes sec)
    let hv ← pyIntNat hours
    let mv ← pyIntNat minutes
    pure (zfillChars 2 (natDigits hv), zfillChars 2 (natDigits mv), sec)
  | _ => Except.error (PyErr.valueError "values to unpack")

/-- One iteration of the `for line in metadata.readlines()` loop of
`get_timestamp`: strip the trailing newline, skip empty lines, handle a date
line, then handle a time line (both tests run on the same line). -/
def processLine (skipMicroseconds : Bool) (dt : DateTimeRec) (line0 : List Char) :
    Except PyErr DateTimeRec := do
  let line := rstripNewline line0
  if line.length = 0 then pure dt
  else do
    let dt1 ←
      if lineHasAny line DATE_STRINGS then do
        let v ← getIdx (splitOnChar '=' (stripChars line)) 1
        let v := stripChars v
        let _ ← validate_date_string v
        pure { dt with date := some (String.mk v) }
      else pure dt
    if lineHasAny line TIME_STRINGS then do
      let line1 := if containsChars line ['"'] then line.filter (· ≠ '"') else line
      let dt2 :=
        if endsWithChar line1 'Z' then { dt1 with timezone := some ZERO_TIMEZONE }
        else dt1
      let (h, m, sec) ← processTimeValue skipMicroseconds line1
      pure { dt2 with
              hours := some (String.mk h),
              minutes := some (String.mk m),
              seconds := some (String.mk sec) }
    else pure dt1

/-- `get_timestamp(scene, tgis)` together with the metadata-file-handle trace.
The manual `timestamp` option short-circuits everything; otherwise the file is
opened inside `try:` and `finally: metadata.close()` runs on every exit.  When
`open` itself raises, the local `metadata` is unbound, so the `finally` clause
raises a `NameError` without any handle having been acquired. -/
def get_timestamp_trace (timestampOption : Option String) (skipMicroseconds : Bool)
    (metafile : Option (List String)) : Except PyErr TimestampVal × List FileEvent :=
  match timestampOption with
  | some s => (Except.ok (TimestampVal.str s), [])
  | none =>
    match metafile with
    | none => (Except.error PyErr.nameError, [FileEvent.openFail])
    | some lines =>
      let body :=
        (lines.foldlM (fun dt l => processLine skipMicroseconds dt l.data) emptyRec).map
          TimestampVal.dict
      (body, [FileEvent.openOk, FileEvent.close])

/-- `get_timestamp`, result only. -/
def get_timestamp (timestampOption : Option String) (skipMicroseconds : Bool)
    (metafile : Option (List String)) : Except PyErr TimestampVal :=
  (get_timestamp_trace timestampOption skipMicroseconds metafile).1

/-! ### The three renderings (`print_timestamp`, `set_timestamp`) -/

/-- `datetime.strftime(datetime.strptime(date, "%Y-%m-%d"), "%d %b %Y")`. -/
def formatDateTgis (date : List Char) : Except PyErr (List Char) :=
  if isValidDate date then
    match splitOnChar '-' date with
    | [y, m, d] =>
      Except.ok (zfillChars 2 (natDigits (digitsToNat d)) ++ ' ' ::
        (monthAbbrev (digitsToNat m) ++ ' ' :: zfillChars 4 (natDigits (digitsToNat y))))
    | _ => Except.error (PyErr.valueError "time data does not match format")
  else Except.error (PyErr.valueError "time data does not match format")

/-- The time normalization of `print_timestamp`: append `.000000` when there
is no dot, then `strptime`/`strftime` with `%H:%M:%S.%f` (zero-padded fields,
`%f` right-padded to six digits). -/
def normalizeTime (t : List Char) : Except PyErr (List Char) :=
  let t1 := if containsChars t ['.'] then t else t ++ ('.' :: "000000".data)
  match splitOnChar '.' t1 with
  | [hms, f] =>
    (match splitOnChar ':' hms with
     | [h, m, s] =>
       if isValidHMS h m s && pyIsDigit f && f.length ≤ 6 then
         Except.ok (zfillChars 2 (natDigits (digitsToNat h)) ++ ':' ::
           (zfillChars 2 (natDigits (digitsToNat m)) ++ ':' ::
             (zfillChars 2 (natDigits (digitsToNat s)) ++ '.' ::
               zfillChars 6 (natDigits (digitsToNat f * 10 ^ (6 - f.length))))))
       else Except.error (PyErr.valueError "time data does not match format")
     | _ => Except.error (PyErr.valueError "time data does not match format"))
  | _ => Except.error (PyErr.valueError "time data does not match format")

/-- The non-tgis branch of `print_timestamp`: the human-readable console
report.  All five dictionary keys are read (a missing one raises `KeyError`),
the date is re-parsed by `strptime` and the time re-rendered, and the message
uses the raw `YYYY-MM-DD` date. -/
def print_timestamp_human (ts : DateTimeRec) : Except PyErr String := do
  let date ← keyGet ts.date
  let _ ← formatDateTgis date.data
  let hours ← keyGet ts.hours
  let minutes ← keyGet ts.minutes
  let seconds ← keyGet ts.seconds
  let tz ← keyGet ts.timezone
  let time ← normalizeTime (joinColon hours.data minutes.data seconds.data)
  pure ("Date\t\tTime\n" ++ "\t" ++ date ++ "\t" ++ String.mk time ++ " " ++ tz ++ "\n\n")

/-- The tgis branch of `print_timestamp`: the catalog line
`'{p}{s}|{d} {t}'` with the `%d %b %Y` date and no timezone. -/
def catalog_line (pre scene : String) (ts : DateTimeRec) : Except PyErr String := do
  let date ← keyGet ts.date
  let dateTgis ← formatDateTgis date.data
  let hours ← keyGet ts.hours
  let minutes ← keyGet ts.minutes
  let seconds ← keyGet ts.seconds
  let _ ← keyGet ts.timezone
  let time ← normalizeTime (joinColon hours.data minutes.data seconds.data)
  pure (pre ++ scene ++ "|" ++ String.mk dateTgis ++ " " ++ String.mk time)

/-- The string assembly of `set_timestamp`: a parsed dictionary becomes
`'<day> <Month-name> <year> <H:M:S>'`; any other value (the manual override
string) is passed to `r.timestamp` verbatim. -/
def build_r_timestamp (ts : TimestampVal) : Except PyErr String :=
  match ts with
  | TimestampVal.str s => Except.ok s
  | TimestampVal.dict d => do
    let date ← keyGet d.date
    if containsChars date.data ['-'] then
      match splitOnChar '-' date.data with
      | [y, m, dd] => do
        let mon ← keyGet (MONTHS (String.mk m))
        let hours ← keyGet d.hours
        let minutes ← keyGet d.minutes
        let seconds ← keyGet d.seconds
        Except.ok (String.mk dd ++ " " ++ mon ++ " " ++ String.mk y ++ " " ++
          hours ++ ":" ++ minutes ++ ":" ++ seconds)
      | _ => Except.error (PyErr.valueError "values to unpack")
    else Except.error PyErr.nameError

/-! ### Collection resolution (`identify_product_collection`, `main`) -/

/-- `identify_product_collection`: walk the scene-name templates in order and
return the first key whose template matches; fall off the end (returning
Python `None`) when nothing matches.  The templates live in `identifiers.py`
(not among the sources), so the table is a parameter: an ordered association
list of collection tags and match predicates. -/
def identify_product_collection (templates : List (String × (String → Bool)))
    (scene : String) : Option String :=
  templates.findSome? (fun p => if p.2 scene then some p.1 else none)

/-- The fatal message `main` emits when the band-template lookup fails. -/
def UNRECOGNIZED_SCENE_MESSAGE : String :=
  "The given scene identifier does not match any known Landsat product file name pattern!"

/-- The collection-resolution step of `main` (lines 846-851): look the
resolved tag up in the band-template table inside `try:`; the bare `except`
turns any failure — in particular the `KeyError` raised when
`identify_product_collection` returned `None` — into `grass.fatal`, aborting
the run. -/
def main_resolve_band_template (templates : List (String × (String → Bool)))
    (bandTemplates : String → Option String) (scene : String) : Except PyErr String :=
  match identify_product_collection templates scene with
  | none => Except.error (PyErr.fatalError UNRECOGNIZED_SCENE_MESSAGE)
  | some tag =>
    match bandTemplates tag with
    | some t => Except.ok t
    | none => Except.error (PyErr.fatalError UNRECOGNIZED_SCENE_MESSAGE)

/-! ### Spectral sets (`retrieve_selected_sets_of_bands`) -/

/-- `retrieve_selected_sets_of_bands`: extend `requested_bands` with each
selected set's members, then deduplicate via `list(set(...))` (modelled as
order-preserving deduplication; Python's set iteration order is unspecified).
`LANDSAT_BANDS` lives in `identifiers.py` (not among the sources), so the
set-to-bands table is a parameter. -/
def retrieve_selected_sets_of_bands {α : Type} [DecidableEq α]
    (landsatBands : String → List α) (spectralSets : List String) : List α :=
  (spectralSets.foldl (fun acc spectralSet => acc ++ landsatBands spectralSet) []).dedup

/-! ### Band ordering (`sort_list_of_bands`) -/

/-- The numeric sort key of `sort_list_of_bands`:
`int(item.partition('_B')[2].partition('.')[0])` when that fragment is all
digits, Python `float('inf')` (here `⊤`) otherwise. -/
def bandSortKey (item : String) : WithTop Nat :=
  let fragment := (splitOnChar '.' (afterFirst ['_', 'B'] item.data)).headD []
  if pyIsDigit fragment then ((digitsToNat fragment : Nat) : WithTop Nat)
  else ⊤

/-- The comparison realizing Python's tuple key
`(int(...) if ... else float('inf'), item)`: numeric key first, whole
filename as the lexicographic tiebreak. -/
def bandLe (a b : String) : Prop :=
  bandSortKey a < bandSortKey b ∨ (bandSortKey a = bandSortKey b ∧ a ≤ b)

instance : DecidableRel bandLe := fun _ _ =>
  inferInstanceAs (Decidable (_ ∨ _))

instance : IsTotal String bandLe where
  total a b := by
    rcases lt_trichotomy (bandSortKey a) (bandSortKey b) with h | h | h
    · exact Or.inl (Or.inl h)
    · rcases le_total a b with hab | hab
      · exact Or.inl (Or.inr ⟨h, hab⟩)
      · exact Or.inr (Or.inr ⟨h.symm, hab⟩)
    · exact Or.inr (Or.inl h)

instance : IsTrans String bandLe where
  trans a b c hab hbc := by
    rcases hab with h1 | ⟨h1, h1'⟩
    · rcases hbc with h2 | ⟨h2, _⟩
      · exact Or.inl (h1.trans h2)
      · exact Or.inl (h2 ▸ h1)
    · rcases hbc with h2 | ⟨h2, h2'⟩
      · exact Or.inl (h1 ▸ h2)
      · exact Or.inr ⟨h1.trans h2, h1'.trans h2'⟩

/-- `sort_list_of_bands`, with Python's stable `sorted` modelled as insertion
sort over the key order (any stable sort w.r.t. this total preorder produces
the same list, since ties are broken by the item itself). -/
def sort_list_of_bands (bands : List String) : List String :=
  List.insertionSort bandLe bands

/-! ### Band identification (`get_name_band`) -/

/-- The band-branch chain of `get_name_band` (lines 429-447): quality layer
keeps the token as a string; three-character tokens go through the three
near-duplicate branches; anything else takes `int(name[-1:])`. -/
def resolveBand (absolute name : List Char) : Except PyErr Band :=
  if containsChars absolute QA_STRING.data then
    Except.ok (Band.str (String.mk name))
  else if name.length = 3 && name.getD 0 ' ' = 'B' && name.getD 2 ' ' = '0' then
    (pyIntNat (name.drop 1)).map Band.num
  else if name.length = 3 && name.getD 2 ' ' = '0' then
    (pyIntNat ((name.drop 1).take 1)).map Band.num
  else if name.length = 3 && name.getD 2 ' ' ≠ '0' then
    (pyIntNat (name.drop 1)).map Band.num
  else
    (pyIntNat (name.drop (name.length - 1))).map Band.num

/-- `get_name_band(scene, filename, single_mapset)`: build the absolute path,
take the last underscore token of the stem (of the absolute path for
image-quality layers, of the bare filename otherwise), abort fatally on a
misnamed `MTL` `.TIF`, resolve the band id, and optionally scene-qualify the
name. -/
def get_name_band (scene filename : String) (singleMapset : Bool) :
    Except PyErr (String × Band) :=
  let absolute := scene.data ++ '/' :: filename.data
  let name :=
    if IMAGE_QUALITY_STRINGS.any (fun q => containsChars absolute q.data) then
      lastTokenUnderscore (splitextStem absolute)
    else
      lastTokenUnderscore (splitextStem filename.data)
  if containsChars absolute MTL_STRING.data then
    Except.error (PyErr.fatalError "Detected an MTL file with the .TIF extension!")
  else
    (resolveBand absolute name).map (fun band =>
      (String.mk (if singleMapset then pathBasename scene.data ++ '_' :: name else name),
        band))

/-! ### Shared helper lemmas -/

theorem splitOnChar_cons (c ch : Char) (rest : List Char) :
    splitOnChar c (ch :: rest) =
      (match splitOnChar c rest with
       | [] => [[]]
       | g :: gs => if ch = c then [] :: g :: gs else (ch :: g) :: gs) := rfl

theorem splitOnChar_ne_nil : ∀ (c : Char) (l : List Char), splitOnChar c l ≠ [] := by
  intro c l
  cases l with
  | nil => simp [splitOnChar]
  | cons x t =>
    rw [splitOnChar_cons]
    cases hs : splitOnChar c t with
    | nil => simp
    | cons g gs =>
      by_cases hx : x = c <;> simp [hx]

theorem splitOnChar_no_occ : ∀ (c : Char) (l : List Char), c ∉ l → splitOnChar c l = [l] := by
  intro c l
  induction l with
  | nil => intro _; rfl
  | cons x t ih =>
    intro h
    have hx : x ≠ c := fun hh => h (hh ▸ List.mem_cons_self x t)
    have ht : c ∉ t := fun hh => h (List.mem_cons_of_mem x hh)
    rw [splitOnChar_cons, ih ht]
    simp [hx]

theorem splitOnChar_append : ∀ (c : Char) (a b : List Char), c ∉ a →
    splitOnChar c (a ++ c :: b) = a :: splitOnChar c b := by
  intro c a
  induction a with
  | nil =>
    intro b _
    rw [List.nil_append, splitOnChar_cons]
    cases hs : splitOnChar c b with
    | nil => exact absurd hs (splitOnChar_ne_nil c b)
    | cons g gs => simp
  | cons x t ih =>
    intro b h
    have hx : x ≠ c := fun hh => h (hh ▸ List.mem_cons_self x t)
    have ht : c ∉ t := fun hh => h (List.mem_cons_of_mem x hh)
    rw [List.cons_append, splitOnChar_cons, ih b ht]
    simp [hx]

theorem digitChar_isDigit {d : Nat} (hd : d < 10) : isDigitChar (digitChar d) = true := by
  interval_cases d <;> decide

theorem digitChar_toNat {d : Nat} (hd : d < 10) : (digitChar d).toNat = 48 + d := by
  interval_cases d <;> decide

theorem mem_natDigitsAux_isDigit : ∀ (fuel n : Nat) (c : Char),
    c ∈ natDigitsAux fuel n → isDigitChar c = true := by
  intro fuel
  induction fuel with
  | zero => intro n c hc; simp [natDigitsAux] at hc
  | succ fuel ih =>
    intro n c hc
    unfold natDigitsAux at hc
    by_cases h : n < 10
    · rw [if_pos h] at hc
      rcases List.mem_singleton.mp hc with rfl
      exact digitChar_isDigit h
    · rw [if_neg h] at hc
      rcases List.mem_append.mp hc with hc | hc
      · exact ih _ c hc
      · rcases List.mem_singleton.mp hc with rfl
        exact digitChar_isDigit (Nat.mod_lt _ (by omega))

theorem mem_natDigits_isDigit {n : Nat} {c : Char} (hc : c ∈ natDigits n) :
    isDigitChar c = true :=
  mem_natDigitsAux_isDigit _ _ _ hc

theorem natDigitsAux_toNat : ∀ (fuel n : Nat), n < fuel →
    digitsToNat (natDigitsAux fuel n) = n := by
  intro fuel
  induction fuel with
  | zero => intro n h; omega
  | succ fuel ih =>
    intro n h
    unfold natDigitsAux
    by_cases h10 : n < 10
    · rw [if_pos h10]
      show digitsToNat [digitChar n] = n
      simp [digitsToNat, digitChar_toNat h10]
    · rw [if_neg h10]
      have hdiv : n / 10 < fuel := by
        have h1 : n / 10 < n := Nat.div_lt_self (by omega) (by omega)
        omega
      show digitsToNat (natDigitsAux fuel (n / 10) ++ [digitChar (n % 10)]) = n
      unfold digitsToNat
      rw [List.foldl_append]
      have hih := ih (n / 10) hdiv
      unfold digitsToNat at hih
      rw [hih]
      simp only [List.foldl_cons, List.foldl_nil]
      rw [digitChar_toNat (Nat.mod_lt _ (by omega))]
      omega

theorem digitsToNat_natDigits (n : Nat) : digitsToNat (natDigits n) = n :=
  natDigitsAux_toNat _ _ (Nat.lt_succ_self n)

theorem isDigit_ne_dot {c : Char} (h : isDigitChar c = true) : c ≠ '.' := by
  intro hc
  subst hc
  exact absurd h (by decide)

theorem pyIsDigit_mem {s : List Char} (h : pyIsDigit s = true) :
    ∀ c ∈ s, isDigitChar c = true := by
  unfold pyIsDigit at h
  rw [Bool.and_eq_true, List.all_eq_true] at h
  exact h.2

theorem dot_not_mem_natDigits (n : Nat) : '.' ∉ natDigits n := fun h =>
  isDigit_ne_dot (mem_natDigits_isDigit h) rfl

theorem dot_not_mem_zfill {k : Nat} {s : List Char}
    (h : ∀ c ∈ s, isDigitChar c = true) : '.' ∉ zfillChars k s := by
  intro hmem
  unfold zfillChars at hmem
  rcases List.mem_append.mp hmem with hm | hm
  · rcases List.eq_of_mem_replicate hm with h0
    exact absurd h0 (by decide)
  · exact isDigit_ne_dot (h _ hm) rfl

theorem digitsToNat_zeros : ∀ (k : Nat) (s : List Char),
    digitsToNat (List.replicate k '0' ++ s) = digitsToNat s := by
  intro k
  induction k with
  | zero => intro s; rfl
  | succ k ih =>
    intro s
    show digitsToNat ('0' :: (List.replicate k '0' ++ s)) = digitsToNat s
    unfold digitsToNat at ih ⊢
    simpa using ih s

theorem pyIsDigit_zfill2 {s : List Char} (h : ∀ c ∈ s, isDigitChar c = true) :
    pyIsDigit (zfillChars 2 s) = true := by
  unfold pyIsDigit zfillChars
  rw [Bool.and_eq_true]
  constructor
  · cases hz : List.replicate (2 - s.length) '0' ++ s with
    | nil =>
      exfalso
      cases s with
      | nil => simp at hz
      | cons x t => simp at hz
    | cons y ys => rfl
  · rw [List.all_eq_true]
    intro c hc
    rcases List.mem_append.mp hc with hc | hc
    · rcases List.eq_of_mem_replicate hc with rfl
      decide
    · exact h c hc

theorem natDigitsAux_length : ∀ (fuel n k : Nat), n < 10 ^ k → 1 ≤ k →
    (natDigitsAux fuel n).length ≤ k := by
  intro fuel
  induction fuel with
  | zero => intro n k _ _; simp [natDigitsAux]
  | succ fuel ih =>
    intro n k hn hk
    unfold natDigitsAux
    by_cases h10 : n < 10
    · rw [if_pos h10]; simpa using hk
    · rw [if_neg h10]
      have hk2 : 2 ≤ k := by
        by_contra hc
        have : k = 1 := by omega
        subst this
        simp at hn
        omega
      have hdiv : n / 10 < 10 ^ (k - 1) := by
        rw [Nat.div_lt_iff_lt_mul (by omega)]
        calc n < 10 ^ k := hn
        _ = 10 ^ (k - 1) * 10 := by
              rw [← pow_succ]
              congr 1
              omega
      have := ih (n / 10) (k - 1) hdiv (by omega)
      simp only [List.length_append, List.length_cons, List.length_nil]
      omega

theorem length_zfill6 {n : Nat} (hn : n < 1000000) :
    (zfillChars 6 (natDigits n)).length = 6 := by
  have hlen : (natDigits n).length ≤ 6 :=
    natDigitsAux_length _ n 6 (by norm_num; omega) (by norm_num)
  unfold zfillChars
  simp [List.length_replicate]
  omega

theorem pyIntNat_of_digits {s : List Char} (h : pyIsDigit s = true) :
    pyIntNat s = Except.ok (digitsToNat s) := by
  unfold pyIntNat
  rw [if_pos h]

theorem processLine_no_match {skip : Bool} {dt : DateTimeRec} {line : List Char}
    (hD : lineHasAny (rstripNewline line) DATE_STRINGS = false)
    (hT : lineHasAny (rstripNewline line) TIME_STRINGS = false) :
    processLine skip dt line = Except.ok dt := by
  unfold processLine
  by_cases hlen : (rstripNewline line).length = 0
  · rw [if_pos hlen]
    rfl
  · rw [if_neg hlen]
    simp only [hD, hT, Bool.false_eq_true, if_false, bind, Except.bind, pure, Except.pure]

/-! ### Claim C1 -/

/-- C1 (counterexample): with microseconds enabled, the metadata seconds value
`09.5000000` is parsed to the seconds string `09` — the fractional part is
dropped, not rendered as `09.500000`, because the below-ten truncation at the
end of the time branch runs even when microseconds were processed. -/
theorem C1_counterexample :
    get_timestamp none false (some ["SCENE_CENTER_TIME = \"10:20:09.5000000Z\""]) =
      Except.ok (TimestampVal.dict
        (DateTimeRec.mk none (some "+0000") (some "10") (some "20") (some "09"))) ∧
    (DateTimeRec.mk none (some "+0000") (some "10") (some "20") (some "09")).seconds ≠
      some "09.500000" := ⟨by decide, by decide⟩

/-- C1 (amended): with microsecond processing enabled, the fractional digit
string is read as an integer, scaled by `1/10^7` (i.e. divided by ten in
microsecond units, rounding half to even), and added to the integer seconds;
the sum is re-rendered with exactly six decimal digits and a zero-filled
two-digit integer part only when it is at least 10 — for sums below 10 the
fractional part is dropped and only the zero-filled integer part remains. -/
theorem C1_theorem (secondsTok fracTok : List Char) (hsec : pyIsDigit secondsTok = true)
    (hfrac : pyIsDigit fracTok = true) :
    let total := digitsToNat secondsTok * 1000000 + roundHalfEvenDiv10 (digitsToNat fracTok)
    computeSeconds false secondsTok (some fracTok) =
      Except.ok (if total < 10000000
        then zfillChars 2 (natDigits (total / 1000000))
        else zfillChars 2 (natDigits (total / 1000000)) ++ '.' ::
          zfillChars 6 (natDigits (total % 1000000))) ∧
    (zfillChars 6 (natDigits (total % 1000000))).length = 6 := by
  intro total
  have hz6digits : ∀ c ∈ natDigits (total % 1000000), isDigitChar c = true :=
    fun c hc => mem_natDigits_isDigit hc
  have hsplit : splitOnChar '.' (format6f total) =
      [natDigits (total / 1000000), zfillChars 6 (natDigits (total % 1000000))] := by
    unfold format6f
    rw [splitOnChar_append _ _ _ (dot_not_mem_natDigits _),
      splitOnChar_no_occ '.' (zfillChars 6 (natDigits (total % 1000000)))
        (dot_not_mem_zfill hz6digits)]
  have hadd : add_leading_zeroes (format6f total) 2 =
      Except.ok (zfillChars 2 (natDigits (total / 1000000)) ++ '.' ::
        zfillChars 6 (natDigits (total % 1000000))) := by
    unfold add_leading_zeroes
    rw [hsplit]
  have hsecstr : splitOnChar '.' (zfillChars 2 (natDigits (total / 1000000)) ++ '.' ::
      zfillChars 6 (natDigits (total % 1000000))) =
      [zfillChars 2 (natDigits (total / 1000000)),
        zfillChars 6 (natDigits (total % 1000000))] := by
    rw [splitOnChar_append _ _ _ (dot_not_mem_zfill (fun c hc => mem_natDigits_isDigit hc)),
      splitOnChar_no_occ '.' (zfillChars 6 (natDigits (total % 1000000)))
        (dot_not_mem_zfill hz6digits)]
  have hint : pyIntNat (zfillChars 2 (natDigits (total / 1000000))) =
      Except.ok (total / 1000000) := by
    rw [pyIntNat_of_digits (pyIsDigit_zfill2 (fun c hc => mem_natDigits_isDigit hc))]
    unfold zfillChars
    rw [digitsToNat_zeros, digitsToNat_natDigits]
  constructor
  · unfold computeSeconds
    simp only [Bool.false_eq_true, if_false, bind, Except.bind,
      pyIntNat_of_digits hfrac, pyIntNat_of_digits hsec, hadd, hsecstr, hint,
      List.headD_cons, pure, Except.pure]
    by_cases hlt : total < 10000000
    · have hq : total / 1000000 < 10 := by
        rw [Nat.div_lt_iff_lt_mul (by norm_num)]
        omega
      rw [if_pos hq, if_pos hlt]
    · have hq : ¬ total / 1000000 < 10 := by
        rw [Nat.div_lt_iff_lt_mul (by norm_num)]
        omega
      rw [if_neg hq, if_neg hlt]
  · exact length_zfill6 (Nat.mod_lt _ (by norm_num))

/-- C1 (witness): the seconds value `23.1234560` is rendered as `23.123456`. -/
theorem C1_witness :
    pyIsDigit "23".data = true ∧ pyIsDigit "1234560".data = true ∧
    computeSeconds false "23".data (some "1234560".data) = Except.ok "23.123456".data :=
  ⟨by decide, by decide,
    (C1_theorem _ _ (by decide) (by decide)).1.trans (by decide)⟩

/-! ### Claim C2 -/

/-- C2 (counterexample): the console report rendered from the round-trip
example's parsed timestamp is not `12 Jun 2015  09:15:23.123456 +0000` (the
non-tgis report uses the raw `2015-06-12` date, and the catalog line uses the
`%d %b %Y` date but no timezone). -/
theorem C2_counterexample :
    print_timestamp_human
        (DateTimeRec.mk (some "2015-06-12") (some "+0000") (some "09") (some "15")
          (some "23.123456")) ≠
      Except.ok "12 Jun 2015  09:15:23.123456 +0000" ∧
    catalog_line "" "LC81610432016342LGN00"
        (DateTimeRec.mk (some "2015-06-12") (some "+0000") (some "09") (some "15")
          (some "23.123456")) ≠
      Except.ok "12 Jun 2015  09:15:23.123456 +0000" := ⟨by decide, by decide⟩

/-- C2 (amended): parsing `DATE_ACQUIRED = 2015-06-12` and
`SCENE_CENTER_TIME = "09:15:23.1234560Z"` yields date `2015-06-12`, timezone
`+0000` and seconds `23.123456`; the human console report renders the raw ISO
date as `Date\t\tTime\n\t2015-06-12\t09:15:23.123456 +0000\n\n`; the catalog
(tgis) line renders `<scene>|12 Jun 2015 09:15:23.123456` (three-letter month,
day first, no timezone); and the store timestamp string is
`12 June 2015 09:15:23.123456` (month spelled out). -/
theorem C2_theorem :
    get_timestamp none false
        (some ["DATE_ACQUIRED = 2015-06-12", "SCENE_CENTER_TIME = \"09:15:23.1234560Z\""]) =
      Except.ok (TimestampVal.dict
        (DateTimeRec.mk (some "2015-06-12") (some "+0000") (some "09") (some "15")
          (some "23.123456"))) ∧
    print_timestamp_human
        (DateTimeRec.mk (some "2015-06-12") (some "+0000") (some "09") (some "15")
          (some "23.123456")) =
      Except.ok "Date\t\tTime\n\t2015-06-12\t09:15:23.123456 +0000\n\n" ∧
    catalog_line "" "LC81610432016342LGN00"
        (DateTimeRec.mk (some "2015-06-12") (some "+0000") (some "09") (some "15")
          (some "23.123456")) =
      Except.ok "LC81610432016342LGN00|12 Jun 2015 09:15:23.123456" ∧
    build_r_timestamp (TimestampVal.dict
        (DateTimeRec.mk (some "2015-06-12") (some "+0000") (some "09") (some "15")
          (some "23.123456"))) =
      Except.ok "12 June 2015 09:15:23.123456" :=
  ⟨by decide, by decide, by decide, by decide⟩

/-! ### Claim C3 -/

/-- C3 (counterexample): on a metadata file with no date and no time line,
`get_timestamp` does not fail — it returns the empty timestamp dictionary. -/
theorem C3_counterexample :
    get_timestamp none false (some ["SPACECRAFT_ID = LANDSAT_8", "END"]) =
      Except.ok (TimestampVal.dict emptyRec) ∧
    emptyRec.date = none ∧ emptyRec.seconds = none := ⟨by decide, rfl, rfl⟩

/-- C3 (amended): for every metadata file none of whose lines carries a date
or time marker, `get_timestamp` returns the empty timestamp dictionary
(rather than failing); the failure only surfaces afterwards, when the report
rendering or the store-timestamp assembly reads the missing `date` key and
raises `KeyError`. -/
theorem C3_theorem : ∀ (skip : Bool) (lines : List String),
    (∀ l ∈ lines, lineHasAny (rstripNewline l.data) DATE_STRINGS = false ∧
      lineHasAny (rstripNewline l.data) TIME_STRINGS = false) →
    get_timestamp none skip (some lines) = Except.ok (TimestampVal.dict emptyRec) ∧
    print_timestamp_human emptyRec = Except.error PyErr.keyError ∧
    build_r_timestamp (TimestampVal.dict emptyRec) = Except.error PyErr.keyError := by
  intro skip lines h
  have hfold : ∀ (ls : List String) (dt : DateTimeRec),
      (∀ l ∈ ls, lineHasAny (rstripNewline l.data) DATE_STRINGS = false ∧
        lineHasAny (rstripNewline l.data) TIME_STRINGS = false) →
      ls.foldlM (fun dt l => processLine skip dt l.data) dt = Except.ok dt := by
    intro ls
    induction ls with
    | nil => intro dt _; rfl
    | cons x xs ih =>
      intro dt hx
      rw [List.foldlM_cons,
        processLine_no_match (hx x (List.mem_cons_self x xs)).1
          (hx x (List.mem_cons_self x xs)).2]
      have := ih dt (fun l hl => hx l (List.mem_cons_of_mem x hl))
      simpa [bind, Except.bind] using this
  refine ⟨?_, by decide, by decide⟩
  show Except.map TimestampVal.dict
      (List.foldlM (fun dt l => processLine skip dt l.data) emptyRec lines) =
    Except.ok (TimestampVal.dict emptyRec)
  rw [hfold lines emptyRec h]
  rfl

/-- C3 (witness): a one-line metadata file without markers. -/
theorem C3_witness :
    (∀ l ∈ ["GROUP = L1_METADATA_FILE"],
      lineHasAny (rstripNewline (String.data l)) DATE_STRINGS = false ∧
      lineHasAny (rstripNewline (String.data l)) TIME_STRINGS = false) ∧
    get_timestamp none false (some ["GROUP = L1_METADATA_FILE"]) =
      Except.ok (TimestampVal.dict emptyRec) ∧
    print_timestamp_human emptyRec = Except.error PyErr.keyError ∧
    build_r_timestamp (TimestampVal.dict emptyRec) = Except.error PyErr.keyError :=
  ⟨by decide, C3_theorem false ["GROUP = L1_METADATA_FILE"] (by decide)⟩

/-! ### Claim C4 -/

/-- C4: when no scene-name template matches, `identify_product_collection`
returns `None` and the resolution step of `main` aborts the run with the
fatal unrecognized-scene error (the `KeyError` of the band-template lookup is
caught by the bare `except` and turned into `grass.fatal`); when some
template matches, the first matching template's collection tag is returned. -/
theorem C4_theorem : ∀ (templates : List (String × (String → Bool)))
    (bandTemplates : String → Option String) (scene : String),
    ((∀ p ∈ templates, p.2 scene = false) →
      identify_product_collection templates scene = none ∧
      main_resolve_band_template templates bandTemplates scene =
        Except.error (PyErr.fatalError UNRECOGNIZED_SCENE_MESSAGE)) ∧
    (∀ pre tag f post, templates = pre ++ (tag, f) :: post →
      (∀ p ∈ pre, p.2 scene = false) → f scene = true →
      identify_product_collection templates scene = some tag) := by
  intro templates bandTemplates scene
  have hnone : ∀ (ts : List (String × (String → Bool))), (∀ p ∈ ts, p.2 scene = false) →
      identify_product_collection ts scene = none := by
    intro ts
    induction ts with
    | nil => intro _; rfl
    | cons p ps ih =>
      intro h
      have hp := h p (List.mem_cons_self p ps)
      have hps := ih (fun q hq => h q (List.mem_cons_of_mem p hq))
      simpa [identify_product_collection, List.findSome?_cons, hp] using hps
  have hfirst : ∀ (pre : List (String × (String → Bool))) (tag : String) (f : String → Bool)
      (post : List (String × (String → Bool))), (∀ p ∈ pre, p.2 scene = false) →
      f scene = true →
      identify_product_collection (pre ++ (tag, f) :: post) scene = some tag := by
    intro pre
    induction pre with
    | nil =>
      intro tag f post _ hf
      simp [identify_product_collection, List.findSome?_cons, hf]
    | cons p ps ih =>
      intro tag f post hpre hf
      have hp := hpre p (List.mem_cons_self p ps)
      have hih := ih tag f post (fun q hq => hpre q (List.mem_cons_of_mem p hq)) hf
      simpa [identify_product_collection, List.findSome?_cons, hp] using hih
  constructor
  · intro h
    have h1 := hnone templates h
    refine ⟨h1, ?_⟩
    unfold main_resolve_band_template
    rw [h1]
  · intro pre tag f post htempl hpre hf
    subst htempl
    exact hfirst pre tag f post hpre hf

/-- C4 (witness): a one-template table, exercised on a non-matching and on a
matching scene name. -/
theorem C4_witness :
    (∀ p ∈ [(("landsat_8" : String), fun s => s == "LC81610432016342LGN00")],
      p.2 "GARBAGE_SCENE_NAME" = false) ∧
    (identify_product_collection
        [(("landsat_8" : String), fun s => s == "LC81610432016342LGN00")]
        "GARBAGE_SCENE_NAME" = none ∧
      main_resolve_band_template
        [(("landsat_8" : String), fun s => s == "LC81610432016342LGN00")]
        (fun _ => some "template") "GARBAGE_SCENE_NAME" =
        Except.error (PyErr.fatalError UNRECOGNIZED_SCENE_MESSAGE)) ∧
    identify_product_collection
        [(("landsat_8" : String), fun s => s == "LC81610432016342LGN00")]
        "LC81610432016342LGN00" = some "landsat_8" :=
  ⟨by decide,
    (C4_theorem _ (fun _ => some "template") "GARBAGE_SCENE_NAME").1 (by decide),
    (C4_theorem _ (fun _ => some "template") "LC81610432016342LGN00").2 []
      "landsat_8" (fun s => s == "LC81610432016342LGN00") [] rfl (by decide) (by decide)⟩

/-! ### Claim C5 -/

/-- C5: `sort_list_of_bands` sorts by the numeric `_B<digits>` key with
non-numeric filenames ordered last and lexicographic tiebreak (the output is
pairwise ordered by exactly that comparison), is a permutation of its input,
is idempotent, and orders the band tokens 1..11 numerically, not lexically. -/
theorem C5_theorem :
    (∀ l : List String,
      List.Sorted bandLe (sort_list_of_bands l) ∧
      (sort_list_of_bands l).Perm l ∧
      sort_list_of_bands (sort_list_of_bands l) = sort_list_of_bands l) ∧
    sort_list_of_bands ["s_B3.TIF", "s_B10.TIF", "s_B7.TIF", "s_B1.TIF", "s_B11.TIF",
        "s_B5.TIF", "s_B2.TIF", "s_B9.TIF", "s_B4.TIF", "s_B8.TIF", "s_B6.TIF",
        "s_BQA.TIF"] =
      ["s_B1.TIF", "s_B2.TIF", "s_B3.TIF", "s_B4.TIF", "s_B5.TIF", "s_B6.TIF",
        "s_B7.TIF", "s_B8.TIF", "s_B9.TIF", "s_B10.TIF", "s_B11.TIF", "s_BQA.TIF"] := by
  constructor
  · intro l
    refine ⟨List.sorted_insertionSort bandLe l, List.perm_insertionSort bandLe l, ?_⟩
    exact (List.sorted_insertionSort bandLe l).insertionSort_eq
  · decide

/-! ### Claim C6 -/

/-- C6 (counterexample): a time line without the trailing `Z` indicator leaves
the parsed timestamp with no timezone at all — the field is absent, not
defaulted to `+0000`. -/
theorem C6_counterexample :
    get_timestamp none false
        (some ["DATE_ACQUIRED = 2015-06-12", "SCENE_CENTER_TIME = 09:15:23.1234560"]) =
      Except.ok (TimestampVal.dict
        (DateTimeRec.mk (some "2015-06-12") none (some "09") (some "15")
          (some "23.123456"))) ∧
    (DateTimeRec.mk (some "2015-06-12") none (some "09") (some "15")
        (some "23.123456")).timezone ≠ some ZERO_TIMEZONE := ⟨by decide, by decide⟩

/-- C6 (amended): on a successfully processed time line, the timezone field is
set to `+0000` exactly when the quote-stripped line ends with the `Z`
indicator; otherwise the timezone field is left as it was (absent when no
earlier line set it). -/
theorem C6_theorem : ∀ (skip : Bool) (dt dt' : DateTimeRec) (line : List Char),
    lineHasAny (rstripNewline line) DATE_STRINGS = false →
    lineHasAny (rstripNewline line) TIME_STRINGS = true →
    processLine skip dt line = Except.ok dt' →
    dt'.timezone =
      (if endsWithChar
          (if containsChars (rstripNewline line) ['"'] then
            (rstripNewline line).filter (· ≠ '"')
          else rstripNewline line) 'Z'
        then some ZERO_TIMEZONE else dt.timezone) := by
  intro skip dt dt' line hD hT hrun
  unfold processLine at hrun
  by_cases hlen : (rstripNewline line).length = 0
  · exfalso
    rw [List.length_eq_zero] at hlen
    rw [hlen] at hT
    exact absurd hT (by decide)
  · rw [if_neg hlen] at hrun
    simp only [hD, hT, Bool.false_eq_true, if_false, if_true, bind, Except.bind,
      pure, Except.pure] at hrun
    cases hptv : processTimeValue skip
        (if containsChars (rstripNewline line) ['"'] then
          (rstripNewline line).filter (· ≠ '"')
        else rstripNewline line) with
    | error e =>
      rw [hptv] at hrun
      cases hrun
    | ok trip =>
      rw [hptv] at hrun
      obtain ⟨h1, m1, s1⟩ := trip
      by_cases hz : endsWithChar
          (if containsChars (rstripNewline line) ['"'] then
            (rstripNewline line).filter (· ≠ '"')
          else rstripNewline line) 'Z'
      · rw [if_pos hz] at hrun ⊢
        cases hrun
        rfl
      · rw [if_neg hz] at hrun ⊢
        cases hrun
        rfl

/-- C6 (witness): a quoted time line ending in `Z` sets the `+0000` zone. -/
theorem C6_witness :
    lineHasAny (rstripNewline "SCENE_CENTER_TIME = \"10:11:22.0000000Z\"".data)
      DATE_STRINGS = false ∧
    lineHasAny (rstripNewline "SCENE_CENTER_TIME = \"10:11:22.0000000Z\"".data)
      TIME_STRINGS = true ∧
    (DateTimeRec.mk none (some "+0000") (some "10") (some "11")
        (some "22.000000")).timezone =
      (if endsWithChar
          (if containsChars (rstripNewline "SCENE_CENTER_TIME = \"10:11:22.0000000Z\"".data)
              ['"'] then
            (rstripNewline "SCENE_CENTER_TIME = \"10:11:22.0000000Z\"".data).filter (· ≠ '"')
          else rstripNewline "SCENE_CENTER_TIME = \"10:11:22.0000000Z\"".data) 'Z'
        then some ZERO_TIMEZONE else emptyRec.timezone) :=
  ⟨by decide, by decide,
    C6_theorem false emptyRec
      (DateTimeRec.mk none (some "+0000") (some "10") (some "11") (some "22.000000"))
      "SCENE_CENTER_TIME = \"10:11:22.0000000Z\"".data
      (by decide) (by decide) (by decide)⟩

/-! ### Claim C7 -/

/-- C7: expanding selected spectral sets is a set union — every band of a
selected set appears in the expansion, and each band appears exactly once
(the result has no duplicates), however the selected sets overlap. -/
theorem C7_theorem : ∀ (landsatBands : String → List Nat) (spectralSets : List String),
    (retrieve_selected_sets_of_bands landsatBands spectralSets).Nodup ∧
    ∀ b, b ∈ retrieve_selected_sets_of_bands landsatBands spectralSets ↔
      ∃ s ∈ spectralSets, b ∈ landsatBands s := by
  intro lb sets
  have hfold : ∀ (sets : List String) (acc : List Nat),
      sets.foldl (fun a s => a ++ lb s) acc = acc ++ (sets.map lb).flatten := by
    intro sets
    induction sets with
    | nil => intro acc; simp
    | cons x xs ih => intro acc; simp [ih, List.append_assoc]
  constructor
  · exact List.nodup_dedup _
  · intro b
    unfold retrieve_selected_sets_of_bands
    rw [hfold, List.nil_append, List.mem_dedup, List.mem_flatten]
    constructor
    · rintro ⟨l, hl, hb⟩
      rcases List.mem_map.mp hl with ⟨s, hs, rfl⟩
      exact ⟨s, hs, hb⟩
    · rintro ⟨s, hs, hb⟩
      exact ⟨lb s, List.mem_map.mpr ⟨s, hs, rfl⟩, hb⟩

/-! ### Claim C8 -/

/-- C8: when a manual timestamp override is supplied, `get_timestamp` returns
the override string without touching the metadata file (the file-event trace
is empty, for every possible file state), and the store-timestamp assembly
passes that string through verbatim. -/
theorem C8_theorem : ∀ (s : String) (skipMicroseconds : Bool)
    (metafile : Option (List String)),
    get_timestamp_trace (some s) skipMicroseconds metafile =
      (Except.ok (TimestampVal.str s), []) ∧
    build_r_timestamp (TimestampVal.str s) = Except.ok s := fun _ _ _ => ⟨rfl, rfl⟩

/-! ### Claim C9 -/

/-- C9: on every execution of `get_timestamp` — override, unopenable file, or
a parse that fails partway — the file-event trace is balanced: every
successful open of the metadata file is matched by a close before the
function returns or propagates its error. -/
theorem C9_theorem : ∀ (timestampOption : Option String) (skipMicroseconds : Bool)
    (metafile : Option (List String)),
    ((get_timestamp_trace timestampOption skipMicroseconds metafile).2).count
        FileEvent.openOk =
      ((get_timestamp_trace timestampOption skipMicroseconds metafile).2).count
        FileEvent.close := by
  intro o skip file
  rcases o with _ | s
  · rcases file with _ | lines <;> rfl
  · rfl

/-! ### Claim C10 -/

/-- C10: with no `MTL` marker in the path, a filename whose last underscore
token is `B` plus one digit 1..9 resolves to that digit as band id, tokens
`B10`/`B11` resolve to 10/11, and a path containing the quality-assessment
marker resolves to the token itself as a string band id. -/
theorem C10_theorem : ∀ (scene filename : String),
    containsChars (scene.data ++ '/' :: filename.data) MTL_STRING.data = false →
    ((∀ q ∈ IMAGE_QUALITY_STRINGS,
        containsChars (scene.data ++ '/' :: filename.data) q.data = false) →
      (∀ d : Nat, 1 ≤ d → d ≤ 9 →
        lastTokenUnderscore (splitextStem filename.data) = ['B', digitChar d] →
        get_name_band scene filename false =
          Except.ok (String.mk ['B', digitChar d], Band.num d)) ∧
      (lastTokenUnderscore (splitextStem filename.data) = "B10".data →
        get_name_band scene filename false = Except.ok ("B10", Band.num 10)) ∧
      (lastTokenUnderscore (splitextStem filename.data) = "B11".data →
        get_name_band scene filename false = Except.ok ("B11", Band.num 11))) ∧
    (containsChars (scene.data ++ '/' :: filename.data) QA_STRING.data = true →
      get_name_band scene filename false =
        Except.ok
          (String.mk (lastTokenUnderscore (splitextStem (scene.data ++ '/' :: filename.data))),
            Band.str (String.mk
              (lastTokenUnderscore (splitextStem (scene.data ++ '/' :: filename.data)))))) := by
  intro scene filename hMTL
  constructor
  · intro hQual
    have hQA : containsChars (scene.data ++ '/' :: filename.data) QA_STRING.data = false :=
      hQual QA_STRING (by decide)
    have hVC : containsChars (scene.data ++ '/' :: filename.data) "VCID".data = false :=
      hQual "VCID" (by decide)
    have hAny : (IMAGE_QUALITY_STRINGS.any fun q =>
        containsChars (scene.data ++ '/' :: filename.data) q.data) = false := by
      have heq : QA_STRING = "QA" := rfl
      simp only [IMAGE_QUALITY_STRINGS, List.any_cons, List.any_nil,
        heq ▸ hQA, hVC, Bool.or_self, Bool.or_false]
    refine ⟨?_, ?_, ?_⟩
    · intro d hd1 hd9 htok
      simp only [get_name_band, hAny, hMTL, htok, Bool.false_eq_true, if_false,
        resolveBand, hQA]
      interval_cases d <;> decide
    · intro htok
      simp only [get_name_band, hAny, hMTL, htok, Bool.false_eq_true, if_false,
        resolveBand, hQA]
      decide
    · intro htok
      simp only [get_name_band, hAny, hMTL, htok, Bool.false_eq_true, if_false,
        resolveBand, hQA]
      decide
  · intro hQA
    have hAny : (IMAGE_QUALITY_STRINGS.any fun q =>
        containsChars (scene.data ++ '/' :: filename.data) q.data) = true := by
      have hQA2 : containsChars (scene.data ++ '/' :: filename.data) ['Q', 'A'] = true := hQA
      simp only [IMAGE_QUALITY_STRINGS, List.any_cons, List.any_nil, hQA2, Bool.true_or]
    simp only [get_name_band, hAny, if_true, hMTL, Bool.false_eq_true, if_false,
      resolveBand, hQA]
    rfl

/-- C10 (witness): concrete Landsat filenames for the `B10` and quality
cases. -/
theorem C10_witness :
    containsChars ("LC81610432005160ASN00".data ++ '/' ::
      "LC81610432005160ASN00_B10.TIF".data) MTL_STRING.data = false ∧
    get_name_band "LC81610432005160ASN00" "LC81610432005160ASN00_B10.TIF" false =
      Except.ok ("B10", Band.num 10) ∧
    get_name_band "LC81610432005160ASN00" "LC81610432005160ASN00_BQA.TIF" false =
      Except.ok ("BQA", Band.str "BQA") :=
  ⟨by decide,
    ((C10_theorem _ _ (by decide)).1 (by decide)).2.1 (by decide),
    ((C10_theorem _ _ (by decide)).2 (by decide)).trans (by decide)⟩

end Landsat
